import Mathlib

/-!
Shallow embedding of the document-store access layer of cfc-api
(src/utils/data/mongo.py): the `MongoManager` singleton registry and its
CRUD record-access operations, with BSON `ObjectId` identifier translation
modelled over strings and Python dicts modelled as association lists.
-/

namespace CfcApi

/-- The sixteen lowercase hexadecimal digit characters in order (digits
then a–f), the canonical alphabet of a BSON ObjectId's string form. -/
def lowerHexChars : List Char :=
  (List.range 10).map (fun n => Char.ofNat (48 + n)) ++
    (List.range 6).map (fun n => Char.ofNat (97 + n))

/-- A string is a canonical ObjectId string when it is exactly 24 lowercase
hexadecimal characters (the form `str(ObjectId)` produces). -/
def isCanonOid (s : String) : Bool :=
  s.data.length == 24 && s.data.all (lowerHexChars.contains ·)

/-- A BSON ObjectId, identified with its canonical 24-character lowercase
hexadecimal string form (bson ObjectIds are 12 bytes; the string form is a
faithful representation). -/
abbrev ObjectId := { s : String // isCanonOid s = true }

/-- `bson.objectid.ObjectId(s)` for a string argument: accepts a
24-character hexadecimal string of either case and normalizes it;
returns `none` where the Python constructor raises `InvalidId`. -/
def ObjectId.ofString (s : String) : Option ObjectId :=
  let t : String := ⟨s.data.map Char.toLower⟩
  if h : isCanonOid t = true then some ⟨t, h⟩ else none

/-- `str(ObjectId)`: the canonical hexadecimal form. -/
def ObjectId.str (o : ObjectId) : String := o.val

/-- The n-th lowercase hex digit character (used to render generated ids). -/
def hexChar (n : Nat) : Char := lowerHexChars.getD n 'f'

lemma hexChar_mem (n : Nat) : hexChar n ∈ lowerHexChars := by
  unfold hexChar
  rcases Nat.lt_or_ge n lowerHexChars.length with h | h
  · rw [List.getD_eq_getElem lowerHexChars 'f' h]
    exact List.getElem_mem h
  · rw [List.getD_eq_default lowerHexChars 'f' h]
    decide

/-- Render a natural number as a 24-character lowercase hexadecimal string. -/
def encodeHex24 (n : Nat) : String :=
  ⟨(List.range 24).map fun i => hexChar (n / 16 ^ (23 - i) % 16)⟩

lemma encodeHex24_canon (n : Nat) : isCanonOid (encodeHex24 n) = true := by
  unfold isCanonOid encodeHex24
  rw [Bool.and_eq_true]
  refine ⟨by simp, ?_⟩
  rw [List.all_eq_true]
  intro c hc
  simp only [List.mem_map, List.mem_range] at hc
  obtain ⟨i, _, rfl⟩ := hc
  exact List.elem_eq_true_of_mem (hexChar_mem (n / 16 ^ (23 - i) % 16))

/-- `ObjectId()` with no argument: a freshly generated id.  Generation is
modelled deterministically from a counter threaded through `create`. -/
def genOid (n : Nat) : ObjectId := ⟨encodeHex24 n, encodeHex24_canon n⟩

lemma toLower_fixed_of_mem_lowerHex : ∀ c ∈ lowerHexChars, Char.toLower c = c := by
  decide

lemma map_id_of_fixed {α : Type} {l : List α} {f : α → α} (h : ∀ x ∈ l, f x = x) :
    l.map f = l := by
  induction l with
  | nil => rfl
  | cons a t ih =>
    simp only [List.map_cons, h a (by simp)]
    rw [ih (fun x hx => h x (by simp [hx]))]

/-- Parsing an ObjectId's own string form gives back the same ObjectId:
the internal→external→internal identifier round trip is lossless. -/
lemma ObjectId.ofString_str (o : ObjectId) : ObjectId.ofString o.str = some o := by
  obtain ⟨s, hs⟩ := o
  unfold ObjectId.ofString ObjectId.str
  have hall : s.data.all (lowerHexChars.contains ·) = true := by
    unfold isCanonOid at hs
    rw [Bool.and_eq_true] at hs
    exact hs.2
  have hmap : s.data.map Char.toLower = s.data := by
    apply map_id_of_fixed
    intro c hc
    exact toLower_fixed_of_mem_lowerHex c
      (List.mem_of_elem_eq_true ((List.all_eq_true.mp hall) c hc))
  have hstr : (⟨s.data.map Char.toLower⟩ : String) = s := by
    rw [hmap]
  simp only [hstr, hs, dite_true]

/-- A field value of a stored document (the JSON-like values the routes
store; nested containers are not exercised by this layer's logic). -/
inductive Value where
  | vStr (s : String)
  | vInt (n : Int)
  | vBool (b : Bool)
  | vOid (o : ObjectId)
  deriving DecidableEq, Repr

/-- A Python dict: an insertion-ordered association list with unique keys
(uniqueness is maintained by the operations below). -/
abbrev Doc := List (String × Value)

/-- `d[k]` / `d.get(k)`: the value at a key, scanning in order. -/
def dGet : Doc → String → Option Value
  | [], _ => none
  | (k', v') :: rest, k => if k' = k then some v' else dGet rest k

/-- `d[k] = v`: replaces the value in place if the key exists (keeping its
position, as Python dicts do), otherwise appends the new key at the end. -/
def dSet : Doc → String → Value → Doc
  | [], k, v => [(k, v)]
  | (k', v') :: rest, k, v =>
    if k' = k then (k, v) :: rest else (k', v') :: dSet rest k v

/-- `d.pop(k, None)`, effect on the dict: the key is removed. -/
def dErase : Doc → String → Doc
  | [], _ => []
  | (k', v') :: rest, k =>
    if k' = k then dErase rest k else (k', v') :: dErase rest k

/-- `k in d`. -/
def dHas (d : Doc) (k : String) : Bool := (dGet d k).isSome

lemma dGet_dSet_self (d : Doc) (k : String) (v : Value) :
    dGet (dSet d k v) k = some v := by
  induction d with
  | nil => simp [dSet, dGet]
  | cons p rest ih =>
    obtain ⟨k', v'⟩ := p
    by_cases h : k' = k
    · simp [dSet, dGet, h]
    · simp [dSet, dGet, h, ih]

lemma dGet_dSet_ne (d : Doc) (k k₂ : String) (v : Value) (hne : k ≠ k₂) :
    dGet (dSet d k v) k₂ = dGet d k₂ := by
  induction d with
  | nil => simp [dSet, dGet, hne]
  | cons p rest ih =>
    obtain ⟨k', v'⟩ := p
    by_cases h : k' = k
    · subst h
      simp [dSet, dGet, hne]
    · simp [dSet, dGet, h, ih]

lemma dGet_dErase_self (d : Doc) (k : String) : dGet (dErase d k) k = none := by
  induction d with
  | nil => simp [dErase, dGet]
  | cons p rest ih =>
    obtain ⟨k', v'⟩ := p
    by_cases h : k' = k
    · simp [dErase, dGet, h, ih]
    · simp [dErase, dGet, h, ih]

lemma dGet_dErase_ne (d : Doc) (k k₂ : String) (hne : k ≠ k₂) :
    dGet (dErase d k) k₂ = dGet d k₂ := by
  induction d with
  | nil => simp [dErase, dGet]
  | cons p rest ih =>
    obtain ⟨k', v'⟩ := p
    by_cases h : k' = k
    · subst h
      simp [dErase, dGet, hne, ih]
    · simp [dErase, dGet, h, ih]

/-- The Python exceptions that can arise in the store layer: FastAPI
HTTPException, bson InvalidId, the bson TypeError on non-string ids,
pymongo DuplicateKeyError, the server errors on `$set`, and ValueError. -/
inductive PyExc where
  | http (status : Nat) (detail : String)
  | invalidId (s : String)
  | typeErrorId
  | duplicateKey (o : ObjectId)
  | writeErrorImmutableId
  | emptySetError
  | valueError (msg : String)
  deriving DecidableEq, Repr

/-- `str(e)` for each modelled exception (starlette HTTPException renders
as "status: detail"; the others render their message text). -/
def PyExc.str : PyExc → String
  | .http status detail => toString status ++ ": " ++ detail
  | .invalidId s =>
      s ++ " is not a valid ObjectId, it must be a 12-byte input or a 24-character hex string"
  | .typeErrorId => "id must be an instance of (bytes, str, ObjectId)"
  | .duplicateKey o =>
      "E11000 duplicate key error collection index: _id_ dup key: _id: " ++ o.val
  | .writeErrorImmutableId =>
      "Performing an update on the path _id would modify the immutable field _id"
  | .emptySetError => "$set is empty. You must specify a field."
  | .valueError msg => msg

/-- A MongoDB collection: its documents in store order.  Every stored
document carries a `_id` field holding an ObjectId. -/
abbrev Collection := List Doc

/-- `collection.find_one(\x7b"_id": oid\x7d)`: first document whose `_id`
equals the given ObjectId. -/
def findOne (coll : Collection) (oid : ObjectId) : Option Doc :=
  coll.find? (fun d => dGet d "_id" == some (.vOid oid))

/-- `collection.insert_one(d)`: rejects a duplicate `_id` with
DuplicateKeyError (leaving the collection unchanged), otherwise appends. -/
def insertOne (coll : Collection) (d : Doc) : Except PyExc Collection :=
  match dGet d "_id" with
  | some (.vOid o) =>
    if coll.any (fun d' => dGet d' "_id" == some (.vOid o)) then
      .error (.duplicateKey o)
    else
      .ok (coll ++ [d])
  | _ => .error .typeErrorId

/-- A document matches a filter when it agrees with every field-equality
constraint of the filter. -/
def matchesFilter (d : Doc) (q : Doc) : Bool :=
  q.all (fun kv => dGet d kv.1 == some kv.2)

/-- Apply a `$set` document: each listed field fully replaces the
corresponding stored field (field-level set). -/
def applySet (d : Doc) (upd : Doc) : Doc :=
  upd.foldl (fun acc kv => dSet acc kv.1 kv.2) d

/-- `collection.update_one(\x7b"_id": oid\x7d, \x7b"$set": upd\x7d)`:
returns `modified_count` and the new collection contents.  The server
rejects an empty `$set` and a `$set` that would change the immutable `_id`
field; `modified_count` is 1 only when the matched document actually
changes. -/
def updateOneGo : Collection → ObjectId → Doc → Except PyExc (Nat × Collection)
  | [], _, _ => .ok (0, [])
  | d :: rest, oid, upd =>
    if dGet d "_id" == some (.vOid oid) then
      if upd.any (fun kv => kv.1 == "_id" && !(some kv.2 == dGet d "_id")) then
        .error .writeErrorImmutableId
      else
        let d' := applySet d upd
        .ok ((if d' == d then 0 else 1), d' :: rest)
    else
      match updateOneGo rest oid upd with
      | .error e => .error e
      | .ok (m, rest') => .ok (m, d :: rest')

/-- `update_one` including the server-side rejection of an empty `$set`
document (raised before any matching happens). -/
def updateOne (coll : Collection) (oid : ObjectId) (upd : Doc) :
    Except PyExc (Nat × Collection) :=
  if upd.isEmpty then .error .emptySetError else updateOneGo coll oid upd

/-- The identifier translation done after every read:
`doc["id"] = str(doc.pop("_id"))`.  Every store-produced document has an
ObjectId under `_id`, so the fallthrough branch is unreachable there. -/
def externalize (d : Doc) : Doc :=
  match dGet d "_id" with
  | some (.vOid o) => dSet (dErase d "_id") "id" (.vStr o.val)
  | _ => d

/-- `MongoManager.get_all_documents`: fetch all documents matching the
filter and translate each identifier to external form.  No store fault
arises in the model, so the try/except wrapper never fires here. -/
def get_all_documents (coll : Collection) (filter_query : Doc) :
    Except PyExc (List Doc) :=
  .ok ((coll.filter (matchesFilter · filter_query)).map externalize)

/-- The body of `MongoManager.get_document_by_id`, i.e. the statements
inside its `try` block: parse the external id, look the document up,
raise 404 when absent, translate the identifier on success. -/
def get_document_by_id_body (coll : Collection) (id : String) :
    Except PyExc Doc :=
  match ObjectId.ofString id with
  | none => .error (.invalidId id)
  | some oid =>
    match findOne coll oid with
    | none => .error (.http 404 "Document not found")
    | some document => .ok (externalize document)

/-- `MongoManager.get_document_by_id`: the body wrapped in
`except Exception as e: raise HTTPException(500, "Failed to fetch
document: " + str(e))`.  The blanket handler also catches the 404
HTTPException the body itself raises. -/
def get_document_by_id (coll : Collection) (id : String) : Except PyExc Doc :=
  match get_document_by_id_body coll id with
  | .ok d => .ok d
  | .error e => .error (.http 500 ("Failed to fetch document: " ++ e.str))

/-- `ObjectId(document_data.pop("id", None))`: a missing id generates a
fresh ObjectId (consuming the generation counter), a well-formed string
converts, anything else raises. -/
def oidOfValue : Option Value → Nat → Except PyExc (ObjectId × Nat)
  | none, ctr => .ok (genOid ctr, ctr + 1)
  | some (.vStr s), ctr =>
    match ObjectId.ofString s with
    | some o => .ok (o, ctr)
    | none => .error (.invalidId s)
  | some (.vOid o), ctr => .ok (o, ctr)
  | some _, _ => .error .typeErrorId

/-- The full effect of one `create_document` call: its return value or
raised exception, the caller-supplied dict as the call leaves it (the code
mutates it in place), the collection contents after the call, and the
id-generation counter after the call. -/
structure CreateOutcome where
  result : Except PyExc Doc
  argAfter : Doc
  coll : Collection
  ctr : Nat
  deriving Repr

/-- `MongoManager.create_document`: pops `id` from the caller's dict,
converts it (or generates a fresh ObjectId), stores it under `_id` in the
same dict, inserts, re-reads the inserted document and translates its
identifier.  Any exception — including the DuplicateKeyError of a
duplicate id and the 500 HTTPException of a failed re-read — is wrapped
into HTTPException 500 by the blanket handler.  Note the dict mutation
order: `pop` has already removed `id` when a malformed id makes the
ObjectId constructor raise, so in that case no `_id` is added. -/
def create_document (coll : Collection) (ctr : Nat) (document_data : Doc) :
    CreateOutcome :=
  let d1 := dErase document_data "id"
  match oidOfValue (dGet document_data "id") ctr with
  | .error e =>
    ⟨.error (.http 500 ("Failed to create document: " ++ e.str)), d1, coll, ctr⟩
  | .ok (oid, ctr') =>
    let d2 := dSet d1 "_id" (.vOid oid)
    match insertOne coll d2 with
    | .error e =>
      ⟨.error (.http 500 ("Failed to create document: " ++ e.str)), d2, coll, ctr'⟩
    | .ok coll' =>
      match findOne coll' oid with
      | none =>
        ⟨.error (.http 500 ("Failed to create document: " ++
            (PyExc.http 500 "Failed to create document").str)), d2, coll', ctr'⟩
      | some created => ⟨.ok (externalize created), d2, coll', ctr'⟩

/-- The result and post-state of one `update_document` call. -/
structure UpdateOutcome where
  result : Except PyExc Doc
  coll : Collection
  deriving Repr

/-- `MongoManager.update_document`: strips the `id` key from the caller's
partial document, applies the rest as a `$set` to the document matching
the given external id, raises 404 when `modified_count` is zero, and
re-reads and translates the updated document.  The blanket handler wraps
every raised exception — the 404 included — into HTTPException 500. -/
def update_document (coll : Collection) (id : String) (document_data : Doc) :
    UpdateOutcome :=
  let update_data := document_data.filter (fun kv => kv.1 != "id")
  match ObjectId.ofString id with
  | none =>
    ⟨.error (.http 500 ("Failed to update document: " ++ (PyExc.invalidId id).str)), coll⟩
  | some oid =>
    match updateOne coll oid update_data with
    | .error e =>
      ⟨.error (.http 500 ("Failed to update document: " ++ e.str)), coll⟩
    | .ok (modified, coll') =>
      if modified == 0 then
        ⟨.error (.http 500 ("Failed to update document: " ++
            (PyExc.http 404 "Document not found").str)), coll'⟩
      else
        match findOne coll' oid with
        | none =>
          ⟨.error (.http 500 ("Failed to update document: " ++
              (PyExc.http 500 "Failed to retrieve updated document").str)), coll'⟩
        | some updated => ⟨.ok (externalize updated), coll'⟩

/-- The body of `MongoManager.create_document`'s `try` block: convert or
generate the identifier, insert, re-read, raise 500 on a failed re-read,
translate.  (The effect on the caller's dict and on the collection is
carried by `create_document` itself; this body names the exception the
`try` block raises, when it raises.) -/
def create_document_body (coll : Collection) (ctr : Nat) (document_data : Doc) :
    Except PyExc Doc :=
  match oidOfValue (dGet document_data "id") ctr with
  | .error e => .error e
  | .ok (oid, _) =>
    match insertOne coll (dSet (dErase document_data "id") "_id" (.vOid oid)) with
    | .error e => .error e
    | .ok coll' =>
      match findOne coll' oid with
      | none => .error (.http 500 "Failed to create document")
      | some created => .ok (externalize created)

/-- The body of `MongoManager.update_document`'s `try` block: strip `id`,
parse the external id, apply the `$set`, raise 404 on zero
`modified_count`, re-read and translate. -/
def update_document_body (coll : Collection) (id : String) (document_data : Doc) :
    Except PyExc Doc :=
  let update_data := document_data.filter (fun kv => kv.1 != "id")
  match ObjectId.ofString id with
  | none => .error (.invalidId id)
  | some oid =>
    match updateOne coll oid update_data with
    | .error e => .error e
    | .ok (modified, coll') =>
      if modified == 0 then .error (.http 404 "Document not found")
      else
        match findOne coll' oid with
        | none => .error (.http 500 "Failed to retrieve updated document")
        | some updated => .ok (externalize updated)

/-- `collection.delete_one(\x7b"_id": oid\x7d)`: removes the first
matching document; returns `deleted_count` and the remaining contents. -/
def deleteOne : Collection → ObjectId → Nat × Collection
  | [], _ => (0, [])
  | d :: rest, oid =>
    if dGet d "_id" == some (.vOid oid) then (1, rest)
    else
      let p := deleteOne rest oid
      (p.1, d :: p.2)

/-- The body of `MongoManager.delete_document`'s `try` block: parse the
external id, delete, raise 404 on zero `deleted_count`, return True. -/
def delete_document_body (coll : Collection) (id : String) : Except PyExc Bool :=
  match ObjectId.ofString id with
  | none => .error (.invalidId id)
  | some oid =>
    match deleteOne coll oid with
    | (n, _) => if n == 0 then .error (.http 404 "Document not found") else .ok true

/-- The result and post-state of one `delete_document` call. -/
structure DeleteOutcome where
  result : Except PyExc Bool
  coll : Collection
  deriving Repr

/-- `MongoManager.delete_document`: deletes the document matching the
given external id and returns True; the blanket handler wraps every
raised exception — its own 404 included — into HTTPException 500. -/
def delete_document (coll : Collection) (id : String) : DeleteOutcome :=
  match ObjectId.ofString id with
  | none =>
    ⟨.error (.http 500 ("Failed to delete document: " ++ (PyExc.invalidId id).str)), coll⟩
  | some oid =>
    match deleteOne coll oid with
    | (n, coll') =>
      if n == 0 then
        ⟨.error (.http 500 ("Failed to delete document: " ++
            (PyExc.http 404 "Document not found").str)), coll'⟩
      else ⟨.ok true, coll'⟩

/-- Process environment: `os.getenv("MONGODB_URI")`. -/
structure Env where
  mongodbUri : Option String
  deriving DecidableEq, Repr

/-- One `MongoManager` instance.  `token` is the allocation identity of
the Python object (two handles are the same object exactly when their
tokens agree); `clientUri` is the URI the AsyncIOMotorClient was opened
with; `databaseName` the logical database it serves. -/
structure MMInstance where
  token : Nat
  clientUri : String
  databaseName : String
  deriving DecidableEq, Repr

/-- The process-wide state behind `MongoManager`: the class-level
`_instances` registry in insertion order, the next allocation token, and
the count of connections opened so far. -/
structure MMState where
  instances : List (String × MMInstance)
  nextToken : Nat
  connections : Nat
  deriving DecidableEq, Repr

/-- `database_name in cls._instances` / `cls._instances[database_name]`. -/
def lookupInst (st : MMState) (name : String) : Option MMInstance :=
  (st.instances.find? (fun p => p.1 == name)).map (fun p => p.2)

/-- `MongoManager.__new__` together with `_initialize_connection`: on a
registry miss a new instance is allocated and initialized — reading
`MONGODB_URI` and raising ValueError when it is absent, before any client
is opened — and only a successfully initialized instance is stored in the
registry; on a hit the cached instance is returned unchanged. -/
def mongoManagerNew (env : Env) (st : MMState) (name : String) :
    Except PyExc MMInstance × MMState :=
  match lookupInst st name with
  | some inst => (.ok inst, st)
  | none =>
    match env.mongodbUri with
    | none =>
      (.error (.valueError "MONGODB_URI environment variable not set"), st)
    | some uri =>
      let inst : MMInstance := ⟨st.nextToken, uri, name⟩
      (.ok inst,
       ⟨st.instances ++ [(name, inst)], st.nextToken + 1, st.connections + 1⟩)

lemma lookupInst_append_self (st : MMState) (name : String) (inst : MMInstance)
    (tok : Nat) (conn : Nat) (h : lookupInst st name = none) :
    lookupInst ⟨st.instances ++ [(name, inst)], tok, conn⟩ name = some inst := by
  unfold lookupInst at h ⊢
  simp only [List.find?_append]
  rcases hf : st.instances.find? (fun p => p.1 == name) with _ | p
  · rw [hf]
    simp [List.find?]
  · rw [hf] at h
    simp at h
lemma name_not_mem_of_lookup_none (st : MMState) (name : String)
    (h : lookupInst st name = none) : name ∉ st.instances.map Prod.fst := by
  unfold lookupInst at h
  intro hmem
  obtain ⟨p, hp, hp1⟩ := List.mem_map.mp hmem
  rcases hf : st.instances.find? (fun q => q.1 == name) with _ | q
  · have := List.find?_eq_none.mp hf p hp
    simp [hp1] at this
  · rw [hf] at h
    simp at h

/-- Claim C1: for every database name, constructing the store handle twice
with the same name returns the identical cached handle instance (same
allocation token), with the registry state — connection count included —
unchanged by the second call, and the registry keeps at most one handle
per name (its keys stay duplicate-free). -/
theorem mongoManagerNew_idempotent (env : Env) (st : MMState) (name : String)
    (inst : MMInstance) (st' : MMState)
    (h : mongoManagerNew env st name = (.ok inst, st')) :
    mongoManagerNew env st' name = (.ok inst, st') ∧
    ((st.instances.map Prod.fst).Nodup → (st'.instances.map Prod.fst).Nodup) := by
  unfold mongoManagerNew at h ⊢
  rcases hl : lookupInst st name with _ | i
  · rw [hl] at h
    rcases henv : env.mongodbUri with _ | uri
    · rw [henv] at h
      simp at h
    · rw [henv] at h
      simp only [Prod.mk.injEq, Except.ok.injEq] at h
      obtain ⟨hinst, hst⟩ := h
      subst hinst
      subst hst
      rw [lookupInst_append_self st name _ _ _ hl]
      refine ⟨rfl, ?_⟩
      intro hnd
      simp only [List.map_append, List.map_cons, List.map_nil]
      rw [List.nodup_append]
      refine ⟨hnd, List.nodup_singleton name, ?_⟩
      intro a ha hb
      simp only [List.mem_singleton] at hb
      exact name_not_mem_of_lookup_none st name hl (hb ▸ ha)
  · rw [hl] at h
    simp only [Prod.mk.injEq, Except.ok.injEq] at h
    obtain ⟨hinst, hst⟩ := h
    subst hinst
    subst hst
    rw [hl]
    exact ⟨rfl, fun hnd => hnd⟩

/-- Concrete instantiation of `mongoManagerNew_idempotent`: after the
first request for "auth_db" the second request returns the same token-0
instance and leaves the one-connection state untouched. -/
theorem mongoManagerNew_idempotent_witness :
    mongoManagerNew ⟨some "mongodb://u"⟩
        ⟨[("auth_db", ⟨0, "mongodb://u", "auth_db"⟩)], 1, 1⟩ "auth_db" =
      (.ok ⟨0, "mongodb://u", "auth_db"⟩,
       ⟨[("auth_db", ⟨0, "mongodb://u", "auth_db"⟩)], 1, 1⟩) :=
  (mongoManagerNew_idempotent ⟨some "mongodb://u"⟩ ⟨[], 0, 0⟩ "auth_db"
    ⟨0, "mongodb://u", "auth_db"⟩
    ⟨[("auth_db", ⟨0, "mongodb://u", "auth_db"⟩)], 1, 1⟩ rfl).1

/-- Claim C8: the first request for a database name (a registry miss)
reads the connection URI from process configuration; when the
configuration is absent the call raises ValueError immediately, caching
nothing and returning no handle, and when it is present the new handle is
connected with exactly the configured URI. -/
theorem mongoManagerNew_reads_config (env : Env) (st : MMState) (name : String)
    (hmiss : lookupInst st name = none) :
    (env.mongodbUri = none →
      mongoManagerNew env st name =
        (.error (.valueError "MONGODB_URI environment variable not set"), st)) ∧
    (∀ uri, env.mongodbUri = some uri →
      mongoManagerNew env st name =
        (.ok ⟨st.nextToken, uri, name⟩,
         ⟨st.instances ++ [(name, ⟨st.nextToken, uri, name⟩)],
          st.nextToken + 1, st.connections + 1⟩)) := by
  constructor
  · intro henv
    unfold mongoManagerNew
    rw [hmiss, henv]
  · intro uri henv
    unfold mongoManagerNew
    rw [hmiss, henv]

/-- Concrete instantiation of `mongoManagerNew_reads_config` on an empty
registry with `MONGODB_URI` unset. -/
theorem mongoManagerNew_reads_config_witness :
    mongoManagerNew ⟨none⟩ ⟨[], 0, 0⟩ "auth_db" =
      (.error (.valueError "MONGODB_URI environment variable not set"),
       ⟨[], 0, 0⟩) :=
  (mongoManagerNew_reads_config ⟨none⟩ ⟨[], 0, 0⟩ "auth_db" rfl).1 rfl

/-- Claim C9: a handle is cached only after successful initialization —
when `mongoManagerNew` raises, the registry state is exactly what it was
(the name is still unregistered), so a later request for the same name
with the configuration present performs a fresh initialization and opens
a connection instead of returning a broken cached handle. -/
theorem mongoManagerNew_error_not_cached (env : Env) (st : MMState)
    (name : String) (e : PyExc) (st' : MMState)
    (h : mongoManagerNew env st name = (.error e, st')) :
    st' = st ∧ lookupInst st name = none ∧
    (∀ uri, mongoManagerNew ⟨some uri⟩ st name =
      (.ok ⟨st.nextToken, uri, name⟩,
       ⟨st.instances ++ [(name, ⟨st.nextToken, uri, name⟩)],
        st.nextToken + 1, st.connections + 1⟩)) := by
  unfold mongoManagerNew at h
  rcases hl : lookupInst st name with _ | i
  · rw [hl] at h
    rcases henv : env.mongodbUri with _ | uri
    · rw [henv] at h
      simp only [Prod.mk.injEq] at h
      refine ⟨h.2.symm ▸ rfl, rfl, ?_⟩
      intro uri
      unfold mongoManagerNew
      rw [hl]
    · rw [henv] at h
      simp at h
  · rw [hl] at h
    simp at h

/-- Concrete instantiation of `mongoManagerNew_error_not_cached`: the
failed first request leaves the registry empty and the retry with a
configured URI connects. -/
theorem mongoManagerNew_error_not_cached_witness :
    lookupInst ⟨[], 0, 0⟩ "auth_db" = none ∧
    mongoManagerNew ⟨some "mongodb://u"⟩ ⟨[], 0, 0⟩ "auth_db" =
      (.ok ⟨0, "mongodb://u", "auth_db"⟩,
       ⟨[("auth_db", ⟨0, "mongodb://u", "auth_db"⟩)], 1, 1⟩) := by
  have h := mongoManagerNew_error_not_cached ⟨none⟩ ⟨[], 0, 0⟩ "auth_db"
    (.valueError "MONGODB_URI environment variable not set") ⟨[], 0, 0⟩ rfl
  exact ⟨h.2.1, h.2.2 "mongodb://u"⟩

/-- Claim C3, evaluated at the failing inputs: `get_document_by_id` raises
`HTTPException(404)` inside its own `try` block (and bson raises
`InvalidId` for a malformed id string), but the blanket
`except Exception` catches both and re-raises HTTP 500, so the caller
sees a StoreFailure — never NotFound — in exactly the two cases the spec
reserves for NotFound. -/
theorem get_document_by_id_wraps_own_404 :
    get_document_by_id [] "aaaaaaaaaaaaaaaaaaaaaaaa" =
      .error (.http 500 "Failed to fetch document: 404: Document not found") ∧
    get_document_by_id [] "xyz" =
      .error (.http 500 ("Failed to fetch document: " ++ (PyExc.invalidId "xyz").str)) :=
  ⟨rfl, rfl⟩

/-- Claim C7, counterexample: for the malformed external id "xyz" the
caller-visible HTTPException detail is the operation prefix concatenated
with the store-native `InvalidId` error text — store error text does
reach the caller, contradicting the claim that it never does. -/
theorem store_error_text_reaches_caller :
    get_document_by_id [] "xyz" =
      .error (.http 500
        ("Failed to fetch document: xyz is not a valid ObjectId, it must be a 12-byte input or a 24-character hex string")) :=
  rfl

/-- Claim C7 as amended: for every fallible Record Access Operation —
`get_document_by_id`, `create_document`, `update_document`,
`delete_document` — and every fault its `try` block raises, the error
signaled to the caller is HTTP 500 whose caller-visible detail embeds the
fault's description `str(e)` verbatim after the operation's fixed prefix.
(`get_all_documents` does no fallible work in the model: its find and
translation are total, so its wrapper never fires.) -/
theorem record_ops_error_embeds_fault :
    (∀ (coll : Collection) (id : String) (e : PyExc),
      get_document_by_id_body coll id = .error e →
      get_document_by_id coll id =
        .error (.http 500 ("Failed to fetch document: " ++ e.str))) ∧
    (∀ (coll : Collection) (ctr : Nat) (doc : Doc) (e : PyExc),
      create_document_body coll ctr doc = .error e →
      (create_document coll ctr doc).result =
        .error (.http 500 ("Failed to create document: " ++ e.str))) ∧
    (∀ (coll : Collection) (id : String) (pdoc : Doc) (e : PyExc),
      update_document_body coll id pdoc = .error e →
      (update_document coll id pdoc).result =
        .error (.http 500 ("Failed to update document: " ++ e.str))) ∧
    (∀ (coll : Collection) (id : String) (e : PyExc),
      delete_document_body coll id = .error e →
      (delete_document coll id).result =
        .error (.http 500 ("Failed to delete document: " ++ e.str))) := by
  refine ⟨?_, ?_, ?_, ?_⟩
  · intro coll id e h
    unfold get_document_by_id
    rw [h]
  · intro coll ctr doc e h
    unfold create_document_body at h
    unfold create_document
    rcases hoid : oidOfValue (dGet doc "id") ctr with e' | p
    · rw [hoid] at h
      dsimp only at h
      simp only [Except.error.injEq] at h
      subst h
      rfl
    · obtain ⟨oid, ctr₂⟩ := p
      rw [hoid] at h
      dsimp only at h ⊢
      rcases hins : insertOne coll (dSet (dErase doc "id") "_id" (.vOid oid))
        with e' | coll'
      · rw [hins] at h
        dsimp only at h
        simp only [Except.error.injEq] at h
        subst h
        rfl
      · rw [hins] at h
        dsimp only at h ⊢
        rcases hf : findOne coll' oid with _ | created
        · rw [hf] at h
          dsimp only at h
          simp only [Except.error.injEq] at h
          subst h
          rfl
        · rw [hf] at h
          dsimp only at h
          exact Except.noConfusion h
  · intro coll id pdoc e h
    unfold update_document_body at h
    unfold update_document
    dsimp only at h ⊢
    rcases ho : ObjectId.ofString id with _ | oid
    · rw [ho] at h
      dsimp only at h
      simp only [Except.error.injEq] at h
      subst h
      rfl
    · rw [ho] at h
      dsimp only at h ⊢
      rcases hu : updateOne coll oid (pdoc.filter fun kv => kv.1 != "id")
        with e' | p
      · rw [hu] at h
        dsimp only at h
        simp only [Except.error.injEq] at h
        subst h
        rfl
      · obtain ⟨m, coll'⟩ := p
        rw [hu] at h
        dsimp only at h ⊢
        by_cases hz : m = 0
        · subst hz
          rw [if_pos (show ((0 : Nat) == 0) = true from rfl)] at h
          simp only [Except.error.injEq] at h
          subst h
          rfl
        · rw [if_neg (by simpa using hz)] at h
          rw [if_neg (by simpa using hz)]
          rcases hf : findOne coll' oid with _ | u
          · rw [hf] at h
            dsimp only at h
            simp only [Except.error.injEq] at h
            subst h
            rfl
          · rw [hf] at h
            dsimp only at h
            exact Except.noConfusion h
  · intro coll id e h
    unfold delete_document_body at h
    unfold delete_document
    rcases ho : ObjectId.ofString id with _ | oid
    · rw [ho] at h
      dsimp only at h
      simp only [Except.error.injEq] at h
      subst h
      rfl
    · rw [ho] at h
      dsimp only at h ⊢
      rcases hd : deleteOne coll oid with ⟨n, coll'⟩
      rw [hd] at h
      dsimp only at h ⊢
      by_cases hz : n = 0
      · subst hz
        rw [if_pos (show ((0 : Nat) == 0) = true from rfl)] at h
        simp only [Except.error.injEq] at h
        subst h
        rfl
      · rw [if_neg (by simpa using hz)] at h
        exact Except.noConfusion h

/-- Concrete instantiation of `record_ops_error_embeds_fault`: for the
malformed external id "xyz" each of the four fallible operations returns
HTTP 500 with the bson InvalidId text embedded in the caller-visible
detail. -/
theorem record_ops_error_embeds_fault_witness :
    get_document_by_id [] "xyz" =
      .error (.http 500 ("Failed to fetch document: " ++ (PyExc.invalidId "xyz").str)) ∧
    (create_document [] 0 [("id", Value.vStr "xyz")]).result =
      .error (.http 500 ("Failed to create document: " ++ (PyExc.invalidId "xyz").str)) ∧
    (update_document [] "xyz" [("title", Value.vStr "B")]).result =
      .error (.http 500 ("Failed to update document: " ++ (PyExc.invalidId "xyz").str)) ∧
    (delete_document [] "xyz").result =
      .error (.http 500 ("Failed to delete document: " ++ (PyExc.invalidId "xyz").str)) :=
  ⟨record_ops_error_embeds_fault.1 [] "xyz" (.invalidId "xyz") rfl,
   record_ops_error_embeds_fault.2.1 [] 0 [("id", Value.vStr "xyz")]
     (.invalidId "xyz") rfl,
   record_ops_error_embeds_fault.2.2.1 [] "xyz" [("title", Value.vStr "B")]
     (.invalidId "xyz") rfl,
   record_ops_error_embeds_fault.2.2.2 [] "xyz" (.invalidId "xyz") rfl⟩

/-- Claim C10, counterexample: a call with a malformed caller-supplied
`id` pops the `id` key and then raises inside the ObjectId constructor,
before `_id` is assigned — so the caller's dict ends up with `id` removed
but no `_id` key added, and the call fails. -/
theorem create_document_malformed_id_mutation :
    (create_document [] 0 [("id", Value.vStr "xyz")]).argAfter = [] ∧
    (create_document [] 0 [("id", Value.vStr "xyz")]).result =
      .error (.http 500 ("Failed to create document: " ++ (PyExc.invalidId "xyz").str)) :=
  ⟨rfl, rfl⟩

/-- Claim C10 as amended: whenever the identifier translation of
`create_document` succeeds (the `id` key is absent or converts to an
ObjectId), the caller-supplied dict is mutated in place: its `id` key is
removed, an `_id` key holding the internal identifier is added, and if
the input carried an `id` key the dict no longer equals what was passed
in. -/
theorem create_document_mutates_argument (coll : Collection) (ctr : Nat)
    (doc : Doc) (oid : ObjectId) (ctr₂ : Nat)
    (h : oidOfValue (dGet doc "id") ctr = .ok (oid, ctr₂)) :
    (create_document coll ctr doc).argAfter =
      dSet (dErase doc "id") "_id" (.vOid oid) ∧
    dGet (create_document coll ctr doc).argAfter "id" = none ∧
    dGet (create_document coll ctr doc).argAfter "_id" = some (.vOid oid) ∧
    (dHas doc "id" = true → (create_document coll ctr doc).argAfter ≠ doc) := by
  have harg : (create_document coll ctr doc).argAfter =
      dSet (dErase doc "id") "_id" (.vOid oid) := by
    unfold create_document
    rw [h]
    dsimp only
    split
    · rfl
    · split
      · rfl
      · rfl
  have hid : dGet (dSet (dErase doc "id") "_id" (.vOid oid)) "id" = none := by
    rw [dGet_dSet_ne _ _ _ _ (by decide)]
    exact dGet_dErase_self doc "id"
  refine ⟨harg, harg ▸ hid, harg ▸ dGet_dSet_self _ _ _, ?_⟩
  intro hhas heq
  rw [harg] at heq
  rw [heq] at hid
  unfold dHas at hhas
  rw [hid] at hhas
  simp at hhas

/-- Concrete instantiation of `create_document_mutates_argument`: creating
`\x7bid: 000000000000000000000007, title: A\x7d` leaves the caller's dict
as `\x7btitle: A, _id: ObjectId(...7)\x7d`. -/
theorem create_document_mutates_argument_witness :
    (create_document [] 0
        [("id", Value.vStr "000000000000000000000007"),
         ("title", Value.vStr "A")]).argAfter =
      dSet (dErase [("id", Value.vStr "000000000000000000000007"),
                    ("title", Value.vStr "A")] "id") "_id" (.vOid (genOid 7)) :=
  (create_document_mutates_argument [] 0
    [("id", Value.vStr "000000000000000000000007"), ("title", Value.vStr "A")]
    (genOid 7) 0 rfl).1

/-- Claim C4, counterexample: creating a document whose explicit `id`
equals an existing document's identifier fails with HTTP 500 (the blanket
handler wrapping pymongo's DuplicateKeyError) — a StoreFailure, not a
Conflict/409 — though the collection is indeed left unchanged. -/
theorem create_duplicate_is_500_not_conflict :
    (create_document [[("_id", Value.vOid (genOid 7))]] 0
        [("id", Value.vStr "000000000000000000000007"),
         ("title", Value.vStr "A")]).result =
      .error (.http 500
        ("Failed to create document: " ++ (PyExc.duplicateKey (genOid 7)).str)) ∧
    (create_document [[("_id", Value.vOid (genOid 7))]] 0
        [("id", Value.vStr "000000000000000000000007"),
         ("title", Value.vStr "A")]).coll =
      [[("_id", Value.vOid (genOid 7))]] :=
  ⟨rfl, rfl⟩

/-- Claim C4 as amended: `create_document` with an explicit external id
equal to an existing document's identifier fails with HTTP 500 wrapping
the duplicate-key error text (there is no Conflict/409 path in the code),
and the collection contents and generation counter are unchanged by the
failed call. -/
theorem create_document_duplicate_id (coll : Collection) (ctr : Nat)
    (doc : Doc) (s : String) (o : ObjectId)
    (hid : dGet doc "id" = some (.vStr s))
    (hparse : ObjectId.ofString s = some o)
    (hdup : coll.any (fun d' => dGet d' "_id" == some (.vOid o)) = true) :
    (create_document coll ctr doc).result =
      .error (.http 500
        ("Failed to create document: " ++ (PyExc.duplicateKey o).str)) ∧
    (create_document coll ctr doc).coll = coll ∧
    (create_document coll ctr doc).ctr = ctr := by
  have hoid : oidOfValue (dGet doc "id") ctr = .ok (o, ctr) := by
    rw [hid]
    simp only [oidOfValue]
    rw [hparse]
  have hins : insertOne coll (dSet (dErase doc "id") "_id" (.vOid o)) =
      .error (.duplicateKey o) := by
    unfold insertOne
    rw [dGet_dSet_self]
    dsimp only
    simp [hdup]
  unfold create_document
  rw [hoid]
  dsimp only
  rw [hins]
  exact ⟨rfl, rfl, rfl⟩

/-- Concrete instantiation of `create_document_duplicate_id`. -/
theorem create_document_duplicate_id_witness :
    (create_document [[("_id", Value.vOid (genOid 7))]] 3
        [("id", Value.vStr "000000000000000000000007")]).result =
      .error (.http 500
        ("Failed to create document: " ++ (PyExc.duplicateKey (genOid 7)).str)) :=
  (create_document_duplicate_id [[("_id", Value.vOid (genOid 7))]] 3
    [("id", Value.vStr "000000000000000000000007")]
    "000000000000000000000007" (genOid 7) rfl rfl rfl).1

lemma dGet_applySet_fixed (upd : Doc) (k : String) :
    ∀ d : Doc, (∀ kv ∈ upd, kv.1 = k → some kv.2 = dGet d k) →
      dGet (applySet d upd) k = dGet d k := by
  induction upd with
  | nil => intro d _; rfl
  | cons kv rest ih =>
    intro d h
    have hstep : applySet d (kv :: rest) = applySet (dSet d kv.1 kv.2) rest := by
      unfold applySet
      rw [List.foldl_cons]
    rw [hstep]
    have hsame : dGet (dSet d kv.1 kv.2) k = dGet d k := by
      by_cases hk : kv.1 = k
      · rw [hk, dGet_dSet_self]
        exact h kv (by simp) hk
      · exact dGet_dSet_ne d kv.1 k kv.2 hk
    rw [ih (dSet d kv.1 kv.2) ?_, hsame]
    intro kv' hkv' hk'
    rw [hsame]
    exact h kv' (by simp [hkv']) hk'

lemma updateOneGo_preserves_ids (oid : ObjectId) (upd : Doc) :
    ∀ (coll coll' : Collection) (m : Nat),
      updateOneGo coll oid upd = .ok (m, coll') →
      coll'.map (fun d => dGet d "_id") = coll.map (fun d => dGet d "_id") := by
  intro coll
  induction coll with
  | nil =>
    intro coll' m h
    unfold updateOneGo at h
    simp only [Except.ok.injEq, Prod.mk.injEq] at h
    rw [← h.2]
  | cons d rest ih =>
    intro coll' m h
    unfold updateOneGo at h
    by_cases hm : (dGet d "_id" == some (.vOid oid)) = true
    · rw [if_pos hm] at h
      by_cases hg :
          (upd.any fun kv => kv.1 == "_id" && !(some kv.2 == dGet d "_id")) = true
      · rw [if_pos hg] at h
        simp at h
      · rw [if_neg hg] at h
        simp only [Except.ok.injEq, Prod.mk.injEq] at h
        rw [← h.2]
        simp only [List.map_cons]
        rw [dGet_applySet_fixed upd "_id" d ?_]
        intro kv hkv hk
        rw [Bool.not_eq_true, List.any_eq_false] at hg
        have := hg kv hkv
        rw [hk] at this
        simp only [beq_self_eq_true, Bool.true_and, Bool.not_eq_true',
          beq_eq_false_iff_ne, ne_eq] at this
        simpa using this
    · rw [if_neg hm] at h
      rcases hrec : updateOneGo rest oid upd with e | p
      · rw [hrec] at h
        simp at h
      · obtain ⟨m', rest'⟩ := p
        rw [hrec] at h
        simp only [Except.ok.injEq, Prod.mk.injEq] at h
        rw [← h.2]
        simp only [List.map_cons]
        rw [ih rest' m' hrec]

/-- Claim C5: `update_document` strips the `id` key from the partial
document before applying the `$set`, and the store rejects a `$set` that
would change `_id`, so the sequence of stored identifiers of the
collection is exactly the same after any `update_document` call as
before it — even when the partial document supplies an identifier value.
(Stated without hypotheses: it covers failing calls as well.) -/
theorem update_document_preserves_ids (coll : Collection) (id : String)
    (pdoc : Doc) :
    ((update_document coll id pdoc).coll).map (fun d => dGet d "_id") =
      coll.map (fun d => dGet d "_id") := by
  unfold update_document
  rcases ho : ObjectId.ofString id with _ | oid
  · rfl
  · dsimp only
    rcases hu : updateOne coll oid (pdoc.filter fun kv => kv.1 != "id")
      with e | p
    · rfl
    · obtain ⟨m, coll'⟩ := p
      have hgo : updateOneGo coll oid (pdoc.filter fun kv => kv.1 != "id") =
          .ok (m, coll') := by
        unfold updateOne at hu
        by_cases he : (pdoc.filter fun kv => kv.1 != "id").isEmpty
        · rw [if_pos he] at hu
          simp at hu
        · rw [if_neg he] at hu
          exact hu
      have hids := updateOneGo_preserves_ids oid _ coll coll' m hgo
      dsimp only
      by_cases hz : m == 0
      · rw [if_pos hz]
        exact hids
      · rw [if_neg hz]
        rcases hf : findOne coll' oid with _ | u
        · exact hids
        · exact hids

/-- Claim C6, counterexample: a document with the given id exists, but the
partial update sets a field to the value it already has, so
`modified_count` is zero and the code raises 404 "Document not found"
(wrapped into HTTP 500 by the blanket handler) — the call fails although
a document with that id exists, and the failure the caller sees is a 500,
not NotFound. -/
theorem update_matched_but_unmodified_fails :
    (update_document [[("_id", Value.vOid (genOid 7)), ("title", Value.vStr "A")]]
        "000000000000000000000007" [("title", Value.vStr "A")]).result =
      .error (.http 500 "Failed to update document: 404: Document not found") ∧
    findOne [[("_id", Value.vOid (genOid 7)), ("title", Value.vStr "A")]]
        (genOid 7) =
      some [("_id", Value.vOid (genOid 7)), ("title", Value.vStr "A")] :=
  ⟨rfl, rfl⟩

lemma updateOneGo_modified_found (oid : ObjectId) (upd : Doc) :
    ∀ (coll coll' : Collection) (m : Nat),
      updateOneGo coll oid upd = .ok (m, coll') → m ≠ 0 →
      (findOne coll' oid).isSome = true := by
  intro coll
  induction coll with
  | nil =>
    intro coll' m h hm
    unfold updateOneGo at h
    simp only [Except.ok.injEq, Prod.mk.injEq] at h
    exact absurd h.1.symm hm
  | cons d rest ih =>
    intro coll' m h hm
    unfold updateOneGo at h
    by_cases hmatch : (dGet d "_id" == some (.vOid oid)) = true
    · rw [if_pos hmatch] at h
      by_cases hg :
          (upd.any fun kv => kv.1 == "_id" && !(some kv.2 == dGet d "_id")) = true
      · rw [if_pos hg] at h
        simp at h
      · rw [if_neg hg] at h
        simp only [Except.ok.injEq, Prod.mk.injEq] at h
        rw [← h.2]
        have hpres : dGet (applySet d upd) "_id" = dGet d "_id" := by
          apply dGet_applySet_fixed
          intro kv hkv hk
          rw [Bool.not_eq_true, List.any_eq_false] at hg
          have := hg kv hkv
          rw [hk] at this
          simp only [beq_self_eq_true, Bool.true_and, Bool.not_eq_true',
            beq_eq_false_iff_ne, ne_eq] at this
          simpa using this
        unfold findOne
        rw [List.find?_cons_of_pos]
        · rfl
        · rw [hpres]
          exact hmatch
    · rw [if_neg hmatch] at h
      rcases hrec : updateOneGo rest oid upd with e | p
      · rw [hrec] at h
        simp at h
      · obtain ⟨m', rest'⟩ := p
        rw [hrec] at h
        simp only [Except.ok.injEq, Prod.mk.injEq] at h
        rw [← h.2]
        have hrest := ih rest' m' hrec (by rw [h.1]; exact hm)
        unfold findOne at hrest ⊢
        rw [List.find?_cons_of_neg]
        · exact hrest
        · exact hmatch

/-- Claim C6 as amended: with a well-formed external id, `update_document`
fails — as HTTP 500 wrapping its own "404: Document not found", not as a
NotFound the caller can see — exactly when the `$set` modifies zero
documents, which happens both when no stored document matches the id and
when the matched document is already unchanged by the partial update;
when a document is modified, the call succeeds and returns the re-read
updated document with its identifier in external form. -/
theorem update_document_modified_iff (coll : Collection) (id : String)
    (pdoc : Doc) (oid : ObjectId) (m : Nat) (coll' : Collection)
    (hoid : ObjectId.ofString id = some oid)
    (hupd : updateOne coll oid (pdoc.filter fun kv => kv.1 != "id") =
      .ok (m, coll')) :
    (m = 0 → (update_document coll id pdoc).result =
      .error (.http 500 "Failed to update document: 404: Document not found")) ∧
    (m ≠ 0 → ∃ u, findOne coll' oid = some u ∧
      (update_document coll id pdoc).result = .ok (externalize u)) := by
  constructor
  · intro hm0
    subst hm0
    unfold update_document
    rw [hoid]
    dsimp only
    rw [hupd]
    rfl
  · intro hm
    have hgo : updateOneGo coll oid (pdoc.filter fun kv => kv.1 != "id") =
        .ok (m, coll') := by
      unfold updateOne at hupd
      by_cases he : (pdoc.filter fun kv => kv.1 != "id").isEmpty
      · rw [if_pos he] at hupd
        simp at hupd
      · rw [if_neg he] at hupd
        exact hupd
    have hfound := updateOneGo_modified_found oid _ coll coll' m hgo hm
    rw [Option.isSome_iff_exists] at hfound
    obtain ⟨u, hu⟩ := hfound
    refine ⟨u, hu, ?_⟩
    unfold update_document
    rw [hoid]
    dsimp only
    rw [hupd]
    dsimp only
    rw [if_neg (by simpa using hm)]
    rw [hu]

/-- Concrete instantiation of `update_document_modified_iff`: updating the
title from "A" to "B" modifies one document and returns the re-read
translated document. -/
theorem update_document_modified_iff_witness :
    ∃ u, findOne [[("_id", Value.vOid (genOid 7)), ("title", Value.vStr "B")]]
        (genOid 7) = some u ∧
      (update_document
          [[("_id", Value.vOid (genOid 7)), ("title", Value.vStr "A")]]
          "000000000000000000000007" [("title", Value.vStr "B")]).result =
        .ok (externalize u) :=
  (update_document_modified_iff
    [[("_id", Value.vOid (genOid 7)), ("title", Value.vStr "A")]]
    "000000000000000000000007" [("title", Value.vStr "B")] (genOid 7) 1
    [[("_id", Value.vOid (genOid 7)), ("title", Value.vStr "B")]]
    rfl rfl).2 (by decide)

lemma find?_eq_none_of_any_eq_false {p : Doc → Bool} {coll : Collection}
    (h : coll.any p = false) : coll.find? p = none := by
  rw [List.find?_eq_none]
  intro x hx
  rw [List.any_eq_false] at h
  exact h x hx

/-- Claim C2: whenever `create_document` succeeds, the returned document
carries its identifier under `id` in external string form, it is exactly
the externalized form of a document stored in the resulting collection,
and `get_document_by_id` on that collection with the returned external id
returns a document equal to it in every field. -/
theorem create_document_roundtrip (coll : Collection) (ctr : Nat) (doc : Doc)
    (D : Doc) (h : (create_document coll ctr doc).result = .ok D) :
    ∃ s stored,
      dGet D "id" = some (Value.vStr s) ∧
      stored ∈ (create_document coll ctr doc).coll ∧
      D = externalize stored ∧
      get_document_by_id (create_document coll ctr doc).coll s = .ok D := by
  rcases hoid : oidOfValue (dGet doc "id") ctr with e | p
  · unfold create_document at h
    rw [hoid] at h
    simp at h
  · obtain ⟨oid, ctr₂⟩ := p
    by_cases hdup :
        (coll.any fun d' => dGet d' "_id" == some (.vOid oid)) = true
    · have hins : insertOne coll (dSet (dErase doc "id") "_id" (.vOid oid)) =
          .error (.duplicateKey oid) := by
        unfold insertOne
        rw [dGet_dSet_self]
        dsimp only
        simp [hdup]
      unfold create_document at h
      rw [hoid] at h
      dsimp only at h
      rw [hins] at h
      simp at h
    · rw [Bool.not_eq_true] at hdup
      have hins : insertOne coll (dSet (dErase doc "id") "_id" (.vOid oid)) =
          .ok (coll ++ [dSet (dErase doc "id") "_id" (.vOid oid)]) := by
        unfold insertOne
        rw [dGet_dSet_self]
        dsimp only
        simp [hdup]
      have hd2id : dGet (dSet (dErase doc "id") "_id" (.vOid oid)) "_id" =
          some (.vOid oid) := dGet_dSet_self _ _ _
      have hfind : findOne (coll ++ [dSet (dErase doc "id") "_id" (.vOid oid)])
          oid = some (dSet (dErase doc "id") "_id" (.vOid oid)) := by
        unfold findOne
        rw [List.find?_append, find?_eq_none_of_any_eq_false hdup]
        simp [List.find?, hd2id]
      have hout : create_document coll ctr doc =
          ⟨.ok (externalize (dSet (dErase doc "id") "_id" (.vOid oid))),
           dSet (dErase doc "id") "_id" (.vOid oid),
           coll ++ [dSet (dErase doc "id") "_id" (.vOid oid)], ctr₂⟩ := by
        unfold create_document
        rw [hoid]
        dsimp only
        rw [hins]
        dsimp only
        rw [hfind]
      rw [hout] at h
      simp only [Except.ok.injEq] at h
      have hext : externalize (dSet (dErase doc "id") "_id" (.vOid oid)) =
          dSet (dErase (dSet (dErase doc "id") "_id" (.vOid oid)) "_id") "id"
            (.vStr oid.val) := by
        unfold externalize
        rw [hd2id]
      rw [hout]
      refine ⟨oid.val, dSet (dErase doc "id") "_id" (.vOid oid),
        ?_, by simp, h.symm, ?_⟩
      · rw [← h, hext, dGet_dSet_self]
      · have hofs : ObjectId.ofString oid.val = some oid :=
          ObjectId.ofString_str oid
        unfold get_document_by_id get_document_by_id_body
        rw [hofs]
        dsimp only
        rw [hfind]
        dsimp only
        rw [← h]

/-- Concrete instantiation of `create_document_roundtrip`: creating
`\x7btitle: A\x7d` in an empty collection returns the stored document with
the generated id in external form, and reading it back by that id returns
the same document. -/
theorem create_document_roundtrip_witness :
    ∃ s stored,
      dGet [("title", Value.vStr "A"),
            ("id", Value.vStr "000000000000000000000000")] "id" =
        some (Value.vStr s) ∧
      stored ∈ (create_document [] 0 [("title", Value.vStr "A")]).coll ∧
      [("title", Value.vStr "A"),
       ("id", Value.vStr "000000000000000000000000")] = externalize stored ∧
      get_document_by_id (create_document [] 0 [("title", Value.vStr "A")]).coll s =
        .ok [("title", Value.vStr "A"),
             ("id", Value.vStr "000000000000000000000000")] :=
  create_document_roundtrip [] 0 [("title", Value.vStr "A")]
    [("title", Value.vStr "A"), ("id", Value.vStr "000000000000000000000000")] rfl

end CfcApi
